import Mathlib

/-!
Shallow embedding of the voting Cloudflare Worker (`src/worker.js`).

The worker stores four JSON collections (candidates, voting ids, used voting
ids, votes) as single files in a GitHub repository.  `fetchGitHubFile` reads a
file and its `sha` (a 404 is mapped to `{content: [], sha: null}`), and
`updateGitHubFile` performs a compare-and-swap write conditioned on the current `sha` of the file, throwing a distinguished `sha mismatch` error on a version
conflict and other errors otherwise.  The `submit-vote` and
`register-candidate` handlers wrap their read-check-write cycles in a
`MAX_RETRIES = 3` retry loop that retries only on `sha mismatch`, sleeping
`100 * (i + 1)` ms before each retry, and rethrows every other error to the
outer catch, which answers HTTP 500.

We model each collection as a versioned document (`VDoc`), the GitHub CAS
interface per the usage in the worker (version token = `Option Nat`, `none` for an
absent file), and each handler as a small-step state machine whose primitive
steps are exactly the store operations of the worker.  Steps take an optional
injected fault (a thrown error that does not contain `sha mismatch`, e.g. a
network or auth failure); version conflicts are not injected but arise from
the CAS comparison itself.  Traces interleave machine steps with environment
writes (other writers mutating the repository), which is how concurrent
requests and concurrent repository updates are expressed.
-/

namespace Voting

/-- An entry of `voting_ids.json`: `{id, playerName, gameEdition}`. -/
structure Credential where
  id : String
  playerName : String
  gameEdition : String
deriving DecidableEq

/-- An entry of `candidates.json` (the fields the worker validates and uses). -/
structure Candidate where
  partyName : String
  candidateName : String
  password : String
deriving DecidableEq

/-- An entry of `votes.json`, as built by the `submit-vote` handler. -/
structure VoteRecord where
  votingId : String
  party : String
  minecraftName : String
  gameEdition : String
  realName : String
  discordInsta : String
  timestamp : String
deriving DecidableEq

/-- A versioned document: one JSON file in the repository.  `present = false`
models a file that has never been written (GitHub answers 404).  `ver` is the
abstract version counter behind the opaque `sha` token. -/
structure VDoc (α : Type) where
  present : Bool
  items : List α
  ver : Nat
deriving DecidableEq

/-- The `sha` token the GitHub contents API reports for this document:
`none` when the file is absent. -/
def VDoc.sha {α : Type} (d : VDoc α) : Option Nat :=
  if d.present then some d.ver else none

/-- `fetchGitHubFile`: returns `(content, sha)`; a 404 yields `([], none)`
(worker.js lines 50-53). -/
def VDoc.readDoc {α : Type} (d : VDoc α) : List α × Option Nat :=
  if d.present then (d.items, some d.ver) else ([], none)

/-- `updateGitHubFile`: a CAS write.  Succeeds iff the expected sha matches the
current sha of the document (absent marker `none` matches an absent file); on
success the file exists with the new items and a fresh version.  `none` as a
result models the thrown `sha mismatch` error (worker.js lines 114-121). -/
def VDoc.casWrite {α : Type} (d : VDoc α) (xs : List α) (expected : Option Nat) :
    Option (VDoc α) :=
  if expected = d.sha then some ⟨true, xs, d.ver + 1⟩ else none

/-- An unconditional write by another writer (a concurrent request or any
out-of-band update to the repository). -/
def VDoc.envSet {α : Type} (d : VDoc α) (xs : List α) : VDoc α :=
  ⟨true, xs, d.ver + 1⟩

/-- The four collections of the worker. -/
structure Store where
  candidates : VDoc Candidate
  votingIds : VDoc Credential
  usedIds : VDoc String
  votes : VDoc VoteRecord
deriving DecidableEq

/-- Names of the four collections (for the event log). -/
inductive CollName where
  | candsC | vidsC | usedC | votesC
deriving DecidableEq

/-- Observable events of a handler run: a successful CAS write (with the
expected sha it supplied), the backoff sleep, and a version conflict. -/
inductive Ev where
  | wrote (c : CollName) (expected : Option Nat)
  | slept (ms : Nat)
  | conflicted (c : CollName)
deriving DecidableEq

/-- The body of a `submit-vote` request: `{votingId, party, realName?,
discordInsta?}`; `""` stands for a missing/empty (falsy) string field and
`none` for an absent optional field. -/
structure VoteReq where
  votingId : String
  party : String
  realName : Option String
  discordInsta : Option String
deriving DecidableEq

/-- A `submit-vote` response body plus its HTTP status.  The submit-vote
responses of the worker are `{success, message}` objects; `used` is `none`
whenever the JSON object carries no `used` key. -/
structure SubResp where
  success : Bool
  message : String
  used : Option Bool
  status : Nat
deriving DecidableEq

/-- worker.js line 340: missing voting ID or party. -/
def subMissing : SubResp :=
  ⟨false, "Missing voting ID or party for vote submission.", none, 400⟩

/-- worker.js line 351: unknown voting ID. -/
def subInvalid : SubResp :=
  ⟨false, "Invalid Voting ID provided for vote submission.", none, 401⟩

/-- worker.js line 362: the voting ID is already in `used_voting_ids.json`. -/
def subAlreadyUsed : SubResp :=
  ⟨true, "This Voting ID has already been used to vote.", none, 200⟩

/-- worker.js line 390: both writes succeeded. -/
def subOk : SubResp :=
  ⟨true, "Vote submitted successfully.", none, 200⟩

/-- worker.js line 403: the retry loop exhausted its three attempts. -/
def subExhausted : SubResp :=
  ⟨false, "Failed to submit vote after multiple retries due to concurrent updates.", none, 500⟩

/-- worker.js lines 417-421: the outer catch for a rethrown error. -/
def subInternal (m : String) : SubResp :=
  ⟨false, "Internal Server Error: " ++ m, none, 500⟩

/-- `MAX_RETRIES` of both retry loops (worker.js lines 293, 343). -/
def MAX_RETRIES : Nat := 3

/-- Program counter of one `submit-vote` execution.  Each non-`done` state is
about to perform one store operation of attempt `i` of the handler
(worker.js lines 345-401). -/
inductive SPC where
  | readIds (i : Nat)
  | readUsed (i : Nat) (cred : Credential)
  | readVotes (i : Nat) (cred : Credential) (used : List String) (uSha : Option Nat)
  | writeVotes (i : Nat) (nv : List VoteRecord) (vSha : Option Nat)
      (nu : List String) (uSha : Option Nat)
  | writeUsed (i : Nat) (nu : List String) (uSha : Option Nat)
  | done (r : SubResp)
deriving DecidableEq

/-- The VoteRecord built at worker.js lines 371-379 (`ts` is the value of
`new Date().toISOString()` at this request). -/
def mkRecord (req : VoteReq) (cred : Credential) (ts : String) : VoteRecord :=
  { votingId := req.votingId
    party := req.party
    minecraftName := cred.playerName
    gameEdition := cred.gameEdition
    realName := req.realName.getD ""
    discordInsta := req.discordInsta.getD ""
    timestamp := ts }

/-- Input validation before the retry loop (worker.js lines 339-341). -/
def subInit (req : VoteReq) : SPC :=
  if req.votingId = "" ∨ req.party = "" then .done subMissing else .readIds 0

/-- The catch branch for a `sha mismatch` error in attempt `i`
(worker.js lines 394-400): sleep `100 * (i + 1)` ms, then either start the
next attempt or, when the loop is exhausted, answer the try-again failure
(lines 402-405). -/
def subConflict (i : Nat) (c : CollName) (st : Store) : Store × SPC × List Ev :=
  (st,
   (if i + 1 < MAX_RETRIES then .readIds (i + 1) else .done subExhausted),
   [.conflicted c, .slept (100 * (i + 1))])

/-- One primitive step of the `submit-vote` handler.  `fault = some m` injects
a thrown error whose message `m` does not contain `sha mismatch` (a network,
auth or payload failure at this store operation): it is rethrown to the outer
catch, which answers HTTP 500 (worker.js lines 396-397, 417-421). -/
def subStep (req : VoteReq) (ts : String) (fault : Option String) (st : Store) :
    SPC → Store × SPC × List Ev
  | .done r => (st, .done r, [])
  | .readIds i =>
    match fault with
    | some m => (st, .done (subInternal m), [])
    | none =>
      match (st.votingIds.readDoc).1.find? (fun c => c.id == req.votingId) with
      | none => (st, .done subInvalid, [])
      | some cred => (st, .readUsed i cred, [])
  | .readUsed i cred =>
    match fault with
    | some m => (st, .done (subInternal m), [])
    | none =>
      if (st.usedIds.readDoc).1.contains req.votingId then
        (st, .done subAlreadyUsed, [])
      else
        (st, .readVotes i cred (st.usedIds.readDoc).1 (st.usedIds.readDoc).2, [])
  | .readVotes i cred used uSha =>
    match fault with
    | some m => (st, .done (subInternal m), [])
    | none =>
      (st,
       .writeVotes i ((st.votes.readDoc).1 ++ [mkRecord req cred ts])
         (st.votes.readDoc).2 (used ++ [req.votingId]) uSha,
       [])
  | .writeVotes i nv vSha nu uSha =>
    match fault with
    | some m => (st, .done (subInternal m), [])
    | none =>
      match st.votes.casWrite nv vSha with
      | some d => ({st with votes := d}, .writeUsed i nu uSha, [.wrote .votesC vSha])
      | none => subConflict i .votesC st
  | .writeUsed i nu uSha =>
    match fault with
    | some m => (st, .done (subInternal m), [])
    | none =>
      match st.usedIds.casWrite nu uSha with
      | some d => ({st with usedIds := d}, .done subOk, [.wrote .usedC uSha])
      | none => subConflict i .usedC st

/-- An environment write: another writer replaces the items of one collection. -/
inductive EnvW where
  | cands (xs : List Candidate)
  | vids (xs : List Credential)
  | used (xs : List String)
  | votes (xs : List VoteRecord)
deriving DecidableEq

/-- Apply an environment write to the store. -/
def envApply (st : Store) : EnvW → Store
  | .cands xs => {st with candidates := st.candidates.envSet xs}
  | .vids xs => {st with votingIds := st.votingIds.envSet xs}
  | .used xs => {st with usedIds := st.usedIds.envSet xs}
  | .votes xs => {st with votes := st.votes.envSet xs}

/-- A trace action: one handler step (with an optional injected fault) or one
environment write interleaved with the handler. -/
inductive SAct where
  | stp (fault : Option String)
  | env (w : EnvW)
deriving DecidableEq

/-- Run a `submit-vote` execution over a trace of actions, accumulating the
events of the handler. -/
def subRun (req : VoteReq) (ts : String) :
    List SAct → Store × SPC × List Ev → Store × SPC × List Ev
  | [], s => s
  | .stp f :: rest, (st, pc, evs) =>
    let r := subStep req ts f st pc
    subRun req ts rest (r.1, r.2.1, evs ++ r.2.2)
  | .env w :: rest, (st, pc, evs) => subRun req ts rest (envApply st w, pc, evs)

/-- A `register-candidate` response body plus its HTTP status. -/
structure RegResp where
  success : Bool
  message : String
  status : Nat
deriving DecidableEq

/-- worker.js line 290: a required candidate field is missing. -/
def regMissing : RegResp :=
  ⟨false, "Missing required candidate fields (partyName, candidateName, password).", 400⟩

/-- worker.js lines 302-303: case-insensitive duplicate party name. -/
def regDup : RegResp :=
  ⟨false, "A party with this name already exists.", 409⟩

/-- worker.js line 311: the candidate was appended. -/
def regOk : RegResp :=
  ⟨true, "Candidate registered successfully.", 200⟩

/-- worker.js line 324: the retry loop exhausted its three attempts. -/
def regExhausted : RegResp :=
  ⟨false, "Failed to register candidate after multiple retries due to concurrent updates.", 500⟩

/-- The outer catch (worker.js lines 417-421) for `register-candidate`. -/
def regInternal (m : String) : RegResp :=
  ⟨false, "Internal Server Error: " ++ m, 500⟩

/-- `String.prototype.toLowerCase` on one character, for the ASCII range that
party names use: letters `A`-`Z` map to `a`-`z`, all else is unchanged. -/
def lowerChar (c : Char) : Char :=
  if c.toNat ≥ 65 ∧ c.toNat ≤ 90 then Char.ofNat (c.toNat + 32) else c

/-- `String.prototype.toLowerCase`, character by character. -/
def lowerStr (s : String) : String := ⟨s.data.map lowerChar⟩

/-- Program counter of one `register-candidate` execution
(worker.js lines 293-326). -/
inductive RPC where
  | readCands (i : Nat)
  | writeCands (i : Nat) (xs : List Candidate) (sha : Option Nat)
  | doneR (r : RegResp)
deriving DecidableEq

/-- Input validation before the retry loop (worker.js lines 289-291). -/
def regInit (c : Candidate) : RPC :=
  if c.partyName = "" ∨ c.candidateName = "" ∨ c.password = "" then .doneR regMissing
  else .readCands 0

/-- The `sha mismatch` catch branch of `register-candidate` in attempt `i`
(worker.js lines 315-321), and exhaustion (lines 323-326). -/
def regConflict (i : Nat) (st : Store) : Store × RPC × List Ev :=
  (st,
   (if i + 1 < MAX_RETRIES then .readCands (i + 1) else .doneR regExhausted),
   [.conflicted .candsC, .slept (100 * (i + 1))])

/-- One primitive step of the `register-candidate` handler. -/
def regStep (c : Candidate) (fault : Option String) (st : Store) :
    RPC → Store × RPC × List Ev
  | .doneR r => (st, .doneR r, [])
  | .readCands i =>
    match fault with
    | some m => (st, .doneR (regInternal m), [])
    | none =>
      if (st.candidates.readDoc).1.any
          (fun c0 => lowerStr c0.partyName == lowerStr c.partyName) then
        (st, .doneR regDup, [])
      else
        (st, .writeCands i ((st.candidates.readDoc).1 ++ [c]) (st.candidates.readDoc).2, [])
  | .writeCands i xs sha =>
    match fault with
    | some m => (st, .doneR (regInternal m), [])
    | none =>
      match st.candidates.casWrite xs sha with
      | some d => ({st with candidates := d}, .doneR regOk, [.wrote .candsC sha])
      | none => regConflict i st

/-- Run a `register-candidate` execution over a trace of actions. -/
def regRun (c : Candidate) :
    List SAct → Store × RPC × List Ev → Store × RPC × List Ev
  | [], s => s
  | .stp f :: rest, (st, pc, evs) =>
    let r := regStep c f st pc
    regRun c rest (r.1, r.2.1, evs ++ r.2.2)
  | .env w :: rest, (st, pc, evs) => regRun c rest (envApply st w, pc, evs)

/-- A `check-voting-id` response body plus its HTTP status; `none` fields are
keys the JSON object does not carry. -/
structure CheckResp where
  success : Bool
  valid : Option Bool
  used : Option Bool
  message : String
  playerName : Option String
  gameEdition : Option String
  status : Nat
deriving DecidableEq

/-- The POST form of `check-voting-id` (worker.js lines 223-252).  It only
reads; the store it leaves behind is returned alongside the response. -/
def checkPost (st : Store) (votingId : String) : CheckResp × Store :=
  if votingId = "" then
    (⟨false, none, none, "Voting ID is required.", none, none, 400⟩, st)
  else
    match (st.votingIds.readDoc).1.find? (fun c => c.id == votingId) with
    | none => (⟨false, none, none, "Invalid Voting ID.", none, none, 401⟩, st)
    | some f =>
      let isUsed := (st.usedIds.readDoc).1.contains votingId
      (⟨true, some true, some isUsed,
        (if isUsed then "Voting ID has already been used." else "Voting ID accepted."),
        some f.playerName, some f.gameEdition, 200⟩, st)

/-- The GET form of `check-voting-id` (worker.js lines 253-279): same reads,
fixed message. -/
def checkGet (st : Store) (votingId : String) : CheckResp × Store :=
  if votingId = "" then
    (⟨false, none, none, "Voting ID is required.", none, none, 400⟩, st)
  else
    match (st.votingIds.readDoc).1.find? (fun c => c.id == votingId) with
    | none => (⟨false, none, none, "Invalid Voting ID.", none, none, 401⟩, st)
    | some f =>
      let isUsed := (st.usedIds.readDoc).1.contains votingId
      (⟨true, some true, some isUsed, "Voting ID status retrieved.",
        some f.playerName, some f.gameEdition, 200⟩, st)

/-- Two interleaved `submit-vote` executions (requests A and B) over one
shared store. -/
structure Duo where
  st : Store
  pa : SPC
  pb : SPC
deriving DecidableEq

/-- A scheduler action for two interleaved executions. -/
inductive DAct where
  | stepA
  | stepB
  | denv (w : EnvW)
deriving DecidableEq

/-- One scheduler action applied to the pair of executions (no injected
faults: both requests run fault-free, only interleaved). -/
def duoStep (ra : VoteReq) (ta : String) (rb : VoteReq) (tb : String)
    (d : Duo) : DAct → Duo
  | .stepA =>
    let r := subStep ra ta none d.st d.pa
    {d with st := r.1, pa := r.2.1}
  | .stepB =>
    let r := subStep rb tb none d.st d.pb
    {d with st := r.1, pb := r.2.1}
  | .denv w => {d with st := envApply d.st w}

/-- Run two interleaved `submit-vote` executions over a schedule. -/
def duoRun (ra : VoteReq) (ta : String) (rb : VoteReq) (tb : String) :
    List DAct → Duo → Duo
  | [], d => d
  | a :: rest, d => duoRun ra ta rb tb rest (duoStep ra ta rb tb d a)

/-- Is this event a version conflict? -/
def Ev.isConf : Ev → Bool
  | .conflicted _ => true
  | _ => false

/-- Is this event a successful CAS write (to any collection)? -/
def Ev.isWrite : Ev → Bool
  | .wrote _ _ => true
  | _ => false

/-- Is this event a successful CAS write to `used_voting_ids.json`? -/
def Ev.isUsedWrite : Ev → Bool
  | .wrote .usedC _ => true
  | _ => false

/-- Number of version conflicts in an event log. -/
def nConf (evs : List Ev) : Nat := (evs.filter Ev.isConf).length

/-- Number of successful CAS writes in an event log. -/
def nW (evs : List Ev) : Nat := (evs.filter Ev.isWrite).length

/-- Number of successful writes to `used_voting_ids.json` in an event log. -/
def nUsedW (evs : List Ev) : Nat := (evs.filter Ev.isUsedWrite).length

/-- Invariant of a `submit-vote` execution inside attempt `i`: the conflicts
seen so far equal the attempt index, the loop bound has not been passed, and
the used-ids collection has not been written. -/
def subInvAt (i : Nat) (evs : List Ev) : Prop :=
  nConf evs = i ∧ i < 3 ∧ nUsedW evs = 0

/-- Invariant of a `submit-vote` execution: in-flight states satisfy
`subInvAt`; a finished state saw at most three conflicts, answers the
try-again failure exactly when it saw three, and has written the used-ids
collection only if it answered the success response. -/
def subInv : SPC → List Ev → Prop
  | .readIds i, evs => subInvAt i evs
  | .readUsed i _, evs => subInvAt i evs
  | .readVotes i _ _ _, evs => subInvAt i evs
  | .writeVotes i _ _ _ _, evs => subInvAt i evs
  | .writeUsed i _ _, evs => subInvAt i evs
  | .done r, evs =>
    nConf evs ≤ 3 ∧ (nConf evs = 3 → r = subExhausted) ∧ (nUsedW evs ≠ 0 → r = subOk)

/-- Invariant of a `register-candidate` execution, as for `subInv`: here the
machine writes only the candidates collection, so any successful write at all
implies the success response. -/
def regInv : RPC → List Ev → Prop
  | .readCands i, evs => nConf evs = i ∧ i < 3 ∧ nW evs = 0
  | .writeCands i _ _, evs => nConf evs = i ∧ i < 3 ∧ nW evs = 0
  | .doneR r, evs =>
    nConf evs ≤ 3 ∧ (nConf evs = 3 → r = regExhausted) ∧ (nW evs ≠ 0 → r = regOk)

/-- A provisioned voting credential. -/
def credA : Credential := ⟨"ABC123", "Steve", "Java"⟩

/-- A well-formed vote submission for `credA`. -/
def reqA : VoteReq := ⟨"ABC123", "Red", none, none⟩

/-- A store where `credA` is provisioned and nothing has been voted. -/
def stInit : Store :=
  { candidates := ⟨true, [], 0⟩
    votingIds := ⟨true, [credA], 0⟩
    usedIds := ⟨true, [], 0⟩
    votes := ⟨true, [], 0⟩ }

/-- `stInit` after `credA` has been consumed by a vote. -/
def stUsed : Store := {stInit with usedIds := ⟨true, ["ABC123"], 0⟩}

/-- A store where `"ABC123"` is marked used but not provisioned. -/
def stNoCred : Store :=
  {stInit with votingIds := ⟨true, [], 0⟩, usedIds := ⟨true, ["ABC123"], 0⟩}

/-- A store where `credA` is provisioned but the used-ids and votes files
have never been written. -/
def stFresh : Store :=
  { candidates := ⟨false, [], 0⟩
    votingIds := ⟨true, [credA], 0⟩
    usedIds := ⟨false, [], 0⟩
    votes := ⟨false, [], 0⟩ }

/-- The interleaving of two fault-free submissions of `reqA`: A runs up to and
including its votes write, B then runs up to and including its votes write
(its fresh votes read makes that CAS succeed), A marks the id used, the
used-ids write of B conflicts, and the retry of B observes the id as used. -/
def duoTraceAB : List DAct :=
  [.stepA, .stepA, .stepA, .stepA,
   .stepB, .stepB, .stepB, .stepB,
   .stepA, .stepB, .stepB, .stepB]

/-- The final state of the two interleaved submissions of `reqA`. -/
def duoFinal : Duo :=
  duoRun reqA "T1" reqA "T2" duoTraceAB ⟨stInit, subInit reqA, subInit reqA⟩

/-- A trace in which every attempt of a submission of `reqA` loses the CAS
race on `used_voting_ids.json` to another writer: the votes write of each attempt
succeeds, its used-ids write conflicts, and the loop exhausts. -/
def c3Trace : List SAct :=
  [.stp none, .stp none, .env (.used ["X1"]), .stp none, .stp none, .stp none,
   .stp none, .stp none, .env (.used ["X1", "X2"]), .stp none, .stp none, .stp none,
   .stp none, .stp none, .env (.used ["X1", "X2", "X3"]), .stp none, .stp none, .stp none]

/-- The final state of the submission along `c3Trace`. -/
def c3Final : Store × SPC × List Ev := subRun reqA "T1" c3Trace (stInit, subInit reqA, [])

/-- A candidate registration request. -/
def candRed : Candidate := ⟨"Red", "Alice", "pw"⟩

/-- Another candidate, whose party collides with `candRed` only by case. -/
def candREDCase : Candidate := ⟨"rEd", "Carol", "pw3"⟩

/-- A third candidate with a distinct party. -/
def candBlue : Candidate := ⟨"Blue", "Bob", "pw2"⟩

/-- A trace in which every attempt of registering `candRed` loses the CAS
race on `candidates.json` to another writer. -/
def r3Trace : List SAct :=
  [.stp none, .env (.cands [candBlue]), .stp none,
   .stp none, .env (.cands [candBlue, candBlue]), .stp none,
   .stp none, .env (.cands [candBlue, candBlue, candBlue]), .stp none]

/-- The final state of the registration along `r3Trace`. -/
def r3Final : Store × RPC × List Ev := regRun candRed r3Trace (stInit, regInit candRed, [])

/-- The version token a read reports is the sha of the document. -/
theorem readDoc_snd {α : Type} (d : VDoc α) : (d.readDoc).2 = d.sha := by
  by_cases h : d.present <;> simp [VDoc.readDoc, VDoc.sha, h]

/-- A CAS write conditioned on the sha just read succeeds. -/
theorem casWrite_self {α : Type} (d : VDoc α) (xs : List α) :
    d.casWrite xs d.sha = some ⟨true, xs, d.ver + 1⟩ := by
  simp [VDoc.casWrite]

/-- A CAS write conditioned on a stale sha fails. -/
theorem casWrite_stale {α : Type} (d : VDoc α) (xs : List α) {e : Option Nat}
    (h : e ≠ d.sha) : d.casWrite xs e = none := by
  simp [VDoc.casWrite, h]

theorem nConf_append (a b : List Ev) : nConf (a ++ b) = nConf a + nConf b := by
  simp [nConf, List.filter_append]

theorem nW_append (a b : List Ev) : nW (a ++ b) = nW a + nW b := by
  simp [nW, List.filter_append]

theorem nUsedW_append (a b : List Ev) : nUsedW (a ++ b) = nUsedW a + nUsedW b := by
  simp [nUsedW, List.filter_append]

/-- With both required fields present, `submit-vote` enters attempt 0. -/
theorem subInit_go {req : VoteReq} (hv : ¬ req.votingId = "") (hp : ¬ req.party = "") :
    subInit req = .readIds 0 := by
  simp [subInit, hv, hp]

/-- With all required fields present, `register-candidate` enters attempt 0. -/
theorem regInit_go {c : Candidate} (hp : ¬ c.partyName = "")
    (hc : ¬ c.candidateName = "") (hw : ¬ c.password = "") :
    regInit c = .readCands 0 := by
  simp [regInit, hp, hc, hw]

theorem subRun_nil (req : VoteReq) (ts : String) (s : Store × SPC × List Ev) :
    subRun req ts [] s = s := rfl

theorem subRun_stp (req : VoteReq) (ts : String) (f : Option String)
    (rest : List SAct) (st : Store) (pc : SPC) (evs : List Ev) :
    subRun req ts (.stp f :: rest) (st, pc, evs) =
      subRun req ts rest
        ((subStep req ts f st pc).1, (subStep req ts f st pc).2.1,
         evs ++ (subStep req ts f st pc).2.2) := rfl

theorem subRun_env (req : VoteReq) (ts : String) (w : EnvW)
    (rest : List SAct) (st : Store) (pc : SPC) (evs : List Ev) :
    subRun req ts (.env w :: rest) (st, pc, evs) =
      subRun req ts rest (envApply st w, pc, evs) := rfl

theorem regRun_nil (c : Candidate) (s : Store × RPC × List Ev) :
    regRun c [] s = s := rfl

theorem regRun_stp (c : Candidate) (f : Option String)
    (rest : List SAct) (st : Store) (pc : RPC) (evs : List Ev) :
    regRun c (.stp f :: rest) (st, pc, evs) =
      regRun c rest
        ((regStep c f st pc).1, (regStep c f st pc).2.1,
         evs ++ (regStep c f st pc).2.2) := rfl

theorem regRun_env (c : Candidate) (w : EnvW)
    (rest : List SAct) (st : Store) (pc : RPC) (evs : List Ev) :
    regRun c (.env w :: rest) (st, pc, evs) =
      regRun c rest (envApply st w, pc, evs) := rfl

/-- A finished `submit-vote` execution stays finished: later trace actions
change neither its response nor its event log. -/
theorem subRun_done (req : VoteReq) (ts : String) (acts : List SAct)
    (st : Store) (r : SubResp) (evs : List Ev) :
    (subRun req ts acts (st, .done r, evs)).2 = (.done r, evs) := by
  induction acts generalizing st with
  | nil => rfl
  | cons a rest ih =>
    cases a with
    | stp f => simpa [subRun_stp, subStep] using ih st
    | env w => simpa [subRun_env] using ih (envApply st w)

/-- A finished `register-candidate` execution stays finished. -/
theorem regRun_done (c : Candidate) (acts : List SAct)
    (st : Store) (r : RegResp) (evs : List Ev) :
    (regRun c acts (st, .doneR r, evs)).2 = (.doneR r, evs) := by
  induction acts generalizing st with
  | nil => rfl
  | cons a rest ih =>
    cases a with
    | stp f => simpa [regRun_stp, regStep] using ih st
    | env w => simpa [regRun_env] using ih (envApply st w)

theorem subRun_append (req : VoteReq) (ts : String) (l1 l2 : List SAct)
    (s : Store × SPC × List Ev) :
    subRun req ts (l1 ++ l2) s = subRun req ts l2 (subRun req ts l1 s) := by
  induction l1 generalizing s with
  | nil => rfl
  | cons a rest ih =>
    obtain ⟨st, pc, evs⟩ := s
    cases a with
    | stp f => simpa [subRun_stp] using ih _
    | env w => simpa [subRun_env] using ih _

theorem regRun_append (c : Candidate) (l1 l2 : List SAct)
    (s : Store × RPC × List Ev) :
    regRun c (l1 ++ l2) s = regRun c l2 (regRun c l1 s) := by
  induction l1 generalizing s with
  | nil => rfl
  | cons a rest ih =>
    obtain ⟨st, pc, evs⟩ := s
    cases a with
    | stp f => simpa [regRun_stp] using ih _
    | env w => simpa [regRun_env] using ih _

theorem subStep_readIds_found {st : Store} {req : VoteReq} {cred : Credential}
    (ts : String) (i : Nat)
    (h : (st.votingIds.readDoc).1.find? (fun c => c.id == req.votingId) = some cred) :
    subStep req ts none st (.readIds i) = (st, .readUsed i cred, []) := by
  simp [subStep, h]

theorem subStep_readIds_none {st : Store} {req : VoteReq} (ts : String) (i : Nat)
    (h : (st.votingIds.readDoc).1.find? (fun c => c.id == req.votingId) = none) :
    subStep req ts none st (.readIds i) = (st, .done subInvalid, []) := by
  simp [subStep, h]

theorem subStep_readUsed_fresh {st : Store} {req : VoteReq} (ts : String)
    (i : Nat) (cred : Credential)
    (h : (st.usedIds.readDoc).1.contains req.votingId = false) :
    subStep req ts none st (.readUsed i cred) =
      (st, .readVotes i cred (st.usedIds.readDoc).1 (st.usedIds.readDoc).2, []) := by
  simp [subStep, h]
  simpa using h

theorem subStep_readUsed_used {st : Store} {req : VoteReq} (ts : String)
    (i : Nat) (cred : Credential)
    (h : (st.usedIds.readDoc).1.contains req.votingId = true) :
    subStep req ts none st (.readUsed i cred) = (st, .done subAlreadyUsed, []) := by
  simp [subStep, h]
  simpa using h

theorem subStep_readVotes (st : Store) (req : VoteReq) (ts : String)
    (i : Nat) (cred : Credential) (used : List String) (uSha : Option Nat) :
    subStep req ts none st (.readVotes i cred used uSha) =
      (st,
       .writeVotes i ((st.votes.readDoc).1 ++ [mkRecord req cred ts])
         (st.votes.readDoc).2 (used ++ [req.votingId]) uSha,
       []) := rfl

theorem subStep_writeVotes_ok {st : Store} {vSha : Option Nat} (req : VoteReq)
    (ts : String) (i : Nat) (nv : List VoteRecord) (nu : List String)
    (uSha : Option Nat) (h : vSha = st.votes.sha) :
    subStep req ts none st (.writeVotes i nv vSha nu uSha) =
      ({st with votes := ⟨true, nv, st.votes.ver + 1⟩}, .writeUsed i nu uSha,
       [.wrote .votesC vSha]) := by
  subst h
  simp [subStep, casWrite_self]

theorem subStep_writeVotes_conf {st : Store} {vSha : Option Nat} (req : VoteReq)
    (ts : String) (i : Nat) (nv : List VoteRecord) (nu : List String)
    (uSha : Option Nat) (h : vSha ≠ st.votes.sha) :
    subStep req ts none st (.writeVotes i nv vSha nu uSha) =
      subConflict i .votesC st := by
  simp [subStep, casWrite_stale _ _ h]

theorem subStep_writeUsed_ok {st : Store} {uSha : Option Nat} (req : VoteReq)
    (ts : String) (i : Nat) (nu : List String) (h : uSha = st.usedIds.sha) :
    subStep req ts none st (.writeUsed i nu uSha) =
      ({st with usedIds := ⟨true, nu, st.usedIds.ver + 1⟩}, .done subOk,
       [.wrote .usedC uSha]) := by
  subst h
  simp [subStep, casWrite_self]

theorem subStep_writeUsed_conf {st : Store} {uSha : Option Nat} (req : VoteReq)
    (ts : String) (i : Nat) (nu : List String) (h : uSha ≠ st.usedIds.sha) :
    subStep req ts none st (.writeUsed i nu uSha) = subConflict i .usedC st := by
  simp [subStep, casWrite_stale _ _ h]

theorem regStep_read_dup {st : Store} {c : Candidate} (i : Nat)
    (h : (st.candidates.readDoc).1.any
      (fun c0 => lowerStr c0.partyName == lowerStr c.partyName) = true) :
    regStep c none st (.readCands i) = (st, .doneR regDup, []) := by
  simp [regStep, h]

theorem regStep_read_fresh {st : Store} {c : Candidate} (i : Nat)
    (h : (st.candidates.readDoc).1.any
      (fun c0 => lowerStr c0.partyName == lowerStr c.partyName) = false) :
    regStep c none st (.readCands i) =
      (st, .writeCands i ((st.candidates.readDoc).1 ++ [c]) (st.candidates.readDoc).2,
       []) := by
  simp [regStep, h]

theorem regStep_write_ok {st : Store} {sha : Option Nat} (c : Candidate)
    (i : Nat) (xs : List Candidate) (h : sha = st.candidates.sha) :
    regStep c none st (.writeCands i xs sha) =
      ({st with candidates := ⟨true, xs, st.candidates.ver + 1⟩}, .doneR regOk,
       [.wrote .candsC sha]) := by
  subst h
  simp [regStep, casWrite_self]

theorem regStep_write_conf {st : Store} {sha : Option Nat} (c : Candidate)
    (i : Nat) (xs : List Candidate) (h : sha ≠ st.candidates.sha) :
    regStep c none st (.writeCands i xs sha) = regConflict i st := by
  simp [regStep, casWrite_stale _ _ h]

/-- The first four fault-free steps of a submission of a valid, unused
credential: after them the handler has appended the VoteRecord to the votes
collection and is about to mark the credential used. -/
theorem submit_four {st : Store} {req : VoteReq} {cred : Credential} (ts : String)
    (hv : ¬ req.votingId = "") (hp : ¬ req.party = "")
    (hf : (st.votingIds.readDoc).1.find? (fun c => c.id == req.votingId) = some cred)
    (hu : (st.usedIds.readDoc).1.contains req.votingId = false) :
    subRun req ts [.stp none, .stp none, .stp none, .stp none] (st, subInit req, []) =
      ({st with votes := ⟨true, (st.votes.readDoc).1 ++ [mkRecord req cred ts],
          st.votes.ver + 1⟩},
       .writeUsed 0 ((st.usedIds.readDoc).1 ++ [req.votingId]) st.usedIds.sha,
       [.wrote .votesC st.votes.sha]) := by
  rw [subInit_go hv hp, subRun_stp, subStep_readIds_found ts 0 hf]
  rw [subRun_stp, subStep_readUsed_fresh ts 0 cred hu]
  rw [subRun_stp, subStep_readVotes]
  rw [subRun_stp, subStep_writeVotes_ok req ts 0 _ _ _ (readDoc_snd st.votes)]
  rw [subRun_nil]
  simp [readDoc_snd]

/-- Any response may finish an execution that has seen fewer than three
conflicts and written nothing relevant: the final-state invariant then holds
vacuously. -/
theorem subInv_done_of_at {evs : List Ev} (r : SubResp)
    (hlt : nConf evs < 3) (h3 : nUsedW evs = 0) :
    subInv (.done r) evs :=
  ⟨by omega, fun hc => absurd hc (by omega), fun hw => absurd h3 hw⟩

/-- The exhausted submission response satisfies the final-state invariant. -/
theorem subInv_done_exh {evs : List Ev} (hc : nConf evs = 3) (h3 : nUsedW evs = 0) :
    subInv (.done subExhausted) evs :=
  ⟨by omega, fun _ => rfl, fun hw => absurd h3 hw⟩

/-- The success submission response satisfies the final-state invariant. -/
theorem subInv_done_okW {evs : List Ev} (hc : nConf evs < 3) :
    subInv (.done subOk) evs :=
  ⟨by omega, fun h => absurd h (by omega), fun _ => rfl⟩

theorem regInv_done_of_at {evs : List Ev} (r : RegResp)
    (hlt : nConf evs < 3) (h3 : nW evs = 0) :
    regInv (.doneR r) evs :=
  ⟨by omega, fun hc => absurd hc (by omega), fun hw => absurd h3 hw⟩

theorem regInv_done_exh {evs : List Ev} (hc : nConf evs = 3) (h3 : nW evs = 0) :
    regInv (.doneR regExhausted) evs :=
  ⟨by omega, fun _ => rfl, fun hw => absurd h3 hw⟩

theorem regInv_done_okW {evs : List Ev} (hc : nConf evs < 3) :
    regInv (.doneR regOk) evs :=
  ⟨by omega, fun h => absurd h (by omega), fun _ => rfl⟩

theorem nConf_conflict (c : CollName) (ms : Nat) :
    nConf [.conflicted c, .slept ms] = 1 := rfl

theorem nUsedW_conflict (c : CollName) (ms : Nat) :
    nUsedW [.conflicted c, .slept ms] = 0 := rfl

theorem nW_conflict (c : CollName) (ms : Nat) :
    nW [.conflicted c, .slept ms] = 0 := rfl

theorem nConf_wrote (c : CollName) (e : Option Nat) : nConf [.wrote c e] = 0 := rfl

theorem nW_wrote (c : CollName) (e : Option Nat) : nW [.wrote c e] = 1 := rfl

theorem nUsedW_wroteVotes (e : Option Nat) : nUsedW [.wrote .votesC e] = 0 := rfl

theorem nUsedW_wroteUsed (e : Option Nat) : nUsedW [.wrote .usedC e] = 1 := rfl

/-- Each `submit-vote` step preserves `subInv`, whatever the store, the
injected fault and the CAS outcomes. -/
theorem subInv_step (req : VoteReq) (ts : String) (fault : Option String)
    (st : Store) (pc : SPC) (evs : List Ev) (h : subInv pc evs) :
    subInv (subStep req ts fault st pc).2.1 (evs ++ (subStep req ts fault st pc).2.2) := by
  cases pc with
  | done r => simpa [subStep] using h
  | readIds i =>
    obtain ⟨h1, h2, h3⟩ := h
    cases fault with
    | some m =>
      simp only [subStep, List.append_nil]
      exact subInv_done_of_at _ (by omega) h3
    | none =>
      rcases hf : (st.votingIds.readDoc).1.find? (fun c => c.id == req.votingId) with _ | cred
      · simp only [subStep, hf, List.append_nil]
        exact subInv_done_of_at _ (by omega) h3
      · simp only [subStep, hf, List.append_nil]
        exact ⟨h1, h2, h3⟩
  | readUsed i cred =>
    obtain ⟨h1, h2, h3⟩ := h
    cases fault with
    | some m =>
      simp only [subStep, List.append_nil]
      exact subInv_done_of_at _ (by omega) h3
    | none =>
      by_cases hc : (st.usedIds.readDoc).1.contains req.votingId = true
      · simp only [subStep, hc, if_pos, List.append_nil]
        exact subInv_done_of_at _ (by omega) h3
      · simp only [subStep, if_neg hc, List.append_nil]
        exact ⟨h1, h2, h3⟩
  | readVotes i cred used uSha =>
    obtain ⟨h1, h2, h3⟩ := h
    cases fault with
    | some m =>
      simp only [subStep, List.append_nil]
      exact subInv_done_of_at _ (by omega) h3
    | none =>
      simp only [subStep, List.append_nil]
      exact ⟨h1, h2, h3⟩
  | writeVotes i nv vSha nu uSha =>
    obtain ⟨h1, h2, h3⟩ := h
    cases fault with
    | some m =>
      simp only [subStep, List.append_nil]
      exact subInv_done_of_at _ (by omega) h3
    | none =>
      rcases hw : st.votes.casWrite nv vSha with _ | d
      · have e1 : nConf (evs ++ [.conflicted .votesC, .slept (100 * (i + 1))]) = i + 1 := by
          rw [nConf_append, nConf_conflict, h1]
        have e3 : nUsedW (evs ++ [.conflicted .votesC, .slept (100 * (i + 1))]) = 0 := by
          rw [nUsedW_append, nUsedW_conflict, h3]
        simp only [subStep, hw, subConflict, MAX_RETRIES]
        by_cases hlt : i + 1 < 3
        · simp only [if_pos hlt]
          exact ⟨e1, hlt, e3⟩
        · simp only [if_neg hlt]
          exact subInv_done_exh (by omega) e3
      · have e1 : nConf (evs ++ [.wrote .votesC vSha]) = i := by
          rw [nConf_append, nConf_wrote, h1]
          omega
        have e3 : nUsedW (evs ++ [.wrote .votesC vSha]) = 0 := by
          rw [nUsedW_append, nUsedW_wroteVotes, h3]
        simp only [subStep, hw]
        exact ⟨e1, h2, e3⟩
  | writeUsed i nu uSha =>
    obtain ⟨h1, h2, h3⟩ := h
    cases fault with
    | some m =>
      simp only [subStep, List.append_nil]
      exact subInv_done_of_at _ (by omega) h3
    | none =>
      rcases hw : st.usedIds.casWrite nu uSha with _ | d
      · have e1 : nConf (evs ++ [.conflicted .usedC, .slept (100 * (i + 1))]) = i + 1 := by
          rw [nConf_append, nConf_conflict, h1]
        have e3 : nUsedW (evs ++ [.conflicted .usedC, .slept (100 * (i + 1))]) = 0 := by
          rw [nUsedW_append, nUsedW_conflict, h3]
        simp only [subStep, hw, subConflict, MAX_RETRIES]
        by_cases hlt : i + 1 < 3
        · simp only [if_pos hlt]
          exact ⟨e1, hlt, e3⟩
        · simp only [if_neg hlt]
          exact subInv_done_exh (by omega) e3
      · have e1 : nConf (evs ++ [.wrote .usedC uSha]) = i := by
          rw [nConf_append, nConf_wrote, h1]
          omega
        simp only [subStep, hw]
        exact subInv_done_okW (by omega)

/-- Each `register-candidate` step preserves `regInv`. -/
theorem regInv_step (c : Candidate) (fault : Option String)
    (st : Store) (pc : RPC) (evs : List Ev) (h : regInv pc evs) :
    regInv (regStep c fault st pc).2.1 (evs ++ (regStep c fault st pc).2.2) := by
  cases pc with
  | doneR r => simpa [regStep] using h
  | readCands i =>
    obtain ⟨h1, h2, h3⟩ := h
    cases fault with
    | some m =>
      simp only [regStep, List.append_nil]
      exact regInv_done_of_at _ (by omega) h3
    | none =>
      by_cases hd : (st.candidates.readDoc).1.any
          (fun c0 => lowerStr c0.partyName == lowerStr c.partyName) = true
      · simp only [regStep, hd, if_pos, List.append_nil]
        exact regInv_done_of_at _ (by omega) h3
      · simp only [regStep, if_neg hd, List.append_nil]
        exact ⟨h1, h2, h3⟩
  | writeCands i xs sha =>
    obtain ⟨h1, h2, h3⟩ := h
    cases fault with
    | some m =>
      simp only [regStep, List.append_nil]
      exact regInv_done_of_at _ (by omega) h3
    | none =>
      rcases hw : st.candidates.casWrite xs sha with _ | d
      · have e1 : nConf (evs ++ [.conflicted .candsC, .slept (100 * (i + 1))]) = i + 1 := by
          rw [nConf_append, nConf_conflict, h1]
        have e3 : nW (evs ++ [.conflicted .candsC, .slept (100 * (i + 1))]) = 0 := by
          rw [nW_append, nW_conflict, h3]
        simp only [regStep, hw, regConflict, MAX_RETRIES]
        by_cases hlt : i + 1 < 3
        · simp only [if_pos hlt]
          exact ⟨e1, hlt, e3⟩
        · simp only [if_neg hlt]
          exact regInv_done_exh (by omega) e3
      · have e1 : nConf (evs ++ [.wrote .candsC sha]) = i := by
          rw [nConf_append, nConf_wrote, h1]
          omega
        simp only [regStep, hw]
        exact regInv_done_okW (by omega)

/-- `subInv` holds along every trace started at a fresh execution. -/
theorem subInv_run (req : VoteReq) (ts : String) (acts : List SAct)
    (s : Store × SPC × List Ev) (h : subInv s.2.1 s.2.2) :
    subInv (subRun req ts acts s).2.1 (subRun req ts acts s).2.2 := by
  induction acts generalizing s with
  | nil => simpa using h
  | cons a rest ih =>
    obtain ⟨st, pc, evs⟩ := s
    cases a with
    | stp f =>
      rw [subRun_stp]
      exact ih _ (subInv_step req ts f st pc evs h)
    | env w =>
      rw [subRun_env]
      exact ih _ h

theorem regInv_run (c : Candidate) (acts : List SAct)
    (s : Store × RPC × List Ev) (h : regInv s.2.1 s.2.2) :
    regInv (regRun c acts s).2.1 (regRun c acts s).2.2 := by
  induction acts generalizing s with
  | nil => simpa using h
  | cons a rest ih =>
    obtain ⟨st, pc, evs⟩ := s
    cases a with
    | stp f =>
      rw [regRun_stp]
      exact ih _ (regInv_step c f st pc evs h)
    | env w =>
      rw [regRun_env]
      exact ih _ h

theorem subInv_init (req : VoteReq) : subInv (subInit req) [] := by
  by_cases h : req.votingId = "" ∨ req.party = ""
  · simp only [subInit, if_pos h]
    exact subInv_done_of_at _ (by simp [nConf]) rfl
  · simp only [subInit, if_neg h]
    exact ⟨rfl, by omega, rfl⟩

theorem regInv_init (c : Candidate) : regInv (regInit c) [] := by
  by_cases h : c.partyName = "" ∨ c.candidateName = "" ∨ c.password = ""
  · simp only [regInit, if_pos h]
    exact regInv_done_of_at _ (by simp [nConf]) rfl
  · simp only [regInit, if_neg h]
    exact ⟨rfl, by omega, rfl⟩


/-- From the invariant, three conflicts force the exhausted submission
response, with no successful write to the used-ids collection. -/
theorem sub_exhaust_of_conf3 {s : Store × SPC × List Ev}
    (hinv : subInv s.2.1 s.2.2) (hs : nConf s.2.2 = 3) :
    s.2.1 = .done subExhausted ∧ nUsedW s.2.2 = 0 := by
  cases hpc : s.2.1 with
  | readIds i =>
    rw [hpc] at hinv
    obtain ⟨h1, h2, _⟩ := hinv
    omega
  | readUsed i cred =>
    rw [hpc] at hinv
    obtain ⟨h1, h2, _⟩ := hinv
    omega
  | readVotes i cred used uSha =>
    rw [hpc] at hinv
    obtain ⟨h1, h2, _⟩ := hinv
    omega
  | writeVotes i nv vSha nu uSha =>
    rw [hpc] at hinv
    obtain ⟨h1, h2, _⟩ := hinv
    omega
  | writeUsed i nu uSha =>
    rw [hpc] at hinv
    obtain ⟨h1, h2, _⟩ := hinv
    omega
  | done r =>
    rw [hpc] at hinv
    have hr := hinv.2.1 hs
    subst hr
    refine ⟨rfl, ?_⟩
    by_cases hw : nUsedW s.2.2 = 0
    · exact hw
    · have hok := hinv.2.2 hw
      exact absurd (congrArg SubResp.success hok) (by decide)

/-- From the invariant, three conflicts force the exhausted registration
response, with no successful write at all. -/
theorem reg_exhaust_of_conf3 {s : Store × RPC × List Ev}
    (hinv : regInv s.2.1 s.2.2) (hs : nConf s.2.2 = 3) :
    s.2.1 = .doneR regExhausted ∧ nW s.2.2 = 0 := by
  cases hpc : s.2.1 with
  | readCands i =>
    rw [hpc] at hinv
    obtain ⟨h1, h2, _⟩ := hinv
    omega
  | writeCands i xs sha =>
    rw [hpc] at hinv
    obtain ⟨h1, h2, _⟩ := hinv
    omega
  | doneR r =>
    rw [hpc] at hinv
    have hr := hinv.2.1 hs
    subst hr
    refine ⟨rfl, ?_⟩
    by_cases hw : nW s.2.2 = 0
    · exact hw
    · have hok := hinv.2.2 hw
      exact absurd (congrArg RegResp.success hok) (by decide)

theorem subStep_fault_writeUsed (req : VoteReq) (ts m : String) (st : Store)
    (i : Nat) (nu : List String) (uSha : Option Nat) :
    subStep req ts (some m) st (.writeUsed i nu uSha) =
      (st, .done (subInternal m), []) := rfl

/-- The full fault-free success chain of a submission of a valid, unused
credential: one VoteRecord appended, one used-id appended, success answered,
both CAS writes conditioned on the shas just read. -/
theorem submit_five {st : Store} {req : VoteReq} {cred : Credential} (ts : String)
    (hv : ¬ req.votingId = "") (hp : ¬ req.party = "")
    (hf : (st.votingIds.readDoc).1.find? (fun c => c.id == req.votingId) = some cred)
    (hu : (st.usedIds.readDoc).1.contains req.votingId = false) :
    subRun req ts [.stp none, .stp none, .stp none, .stp none, .stp none]
        (st, subInit req, []) =
      ({st with
          votes := ⟨true, (st.votes.readDoc).1 ++ [mkRecord req cred ts],
            st.votes.ver + 1⟩,
          usedIds := ⟨true, (st.usedIds.readDoc).1 ++ [req.votingId],
            st.usedIds.ver + 1⟩},
       .done subOk,
       [.wrote .votesC st.votes.sha, .wrote .usedC st.usedIds.sha]) := by
  have hsplit : [SAct.stp none, .stp none, .stp none, .stp none, .stp none] =
      [SAct.stp none, .stp none, .stp none, .stp none] ++ [.stp none] := rfl
  rw [hsplit, subRun_append, submit_four ts hv hp hf hu, subRun_stp]
  rw [subStep_writeUsed_ok req ts 0 _ rfl, subRun_nil]
  simp

/-- Claim C1 (code bug witness): under the interleaving `duoTraceAB` of two
fault-free submissions of the same voting id `"ABC123"`, the worker appends
TWO VoteRecords for that id — both requests answer success (one
`subOk`, one `subAlreadyUsed`) — while the used-ids collection holds the id
once.  This contradicts the at-most-one-VoteRecord invariant the spec states;
the used-id check-then-append protocol leaves a window between the
used-ids read of one request and its used-ids write, in which the votes write
of another request
can land and be re-read, so the second votes CAS succeeds on a fresh sha. -/
theorem C1_double_vote_interleaving :
    (duoFinal.st.votes.items.filter (fun v => v.votingId == "ABC123")).length = 2 ∧
    duoFinal.st.usedIds.items.count "ABC123" = 1 ∧
    duoFinal.pa = .done subOk ∧
    duoFinal.pb = .done subAlreadyUsed := by decide

/-- Claim C2: if the votes append succeeds and the subsequent used-ids write
fails non-retryably (an injected fault at the fifth step), the VoteRecord
remains stored, the used-ids collection is unchanged, and the caller gets the
fatal HTTP 500 `success:false` response from the outer catch — not a success
and not a silent drop. -/
theorem C2_partial_write_failure_is_fatal
    (st : Store) (req : VoteReq) (cred : Credential) (ts m : String)
    (hv : ¬ req.votingId = "") (hp : ¬ req.party = "")
    (hf : (st.votingIds.readDoc).1.find? (fun c => c.id == req.votingId) = some cred)
    (hu : (st.usedIds.readDoc).1.contains req.votingId = false) :
    subRun req ts [.stp none, .stp none, .stp none, .stp none, .stp (some m)]
        (st, subInit req, []) =
      ({st with
          votes := ⟨true, (st.votes.readDoc).1 ++ [mkRecord req cred ts],
            st.votes.ver + 1⟩},
       .done (subInternal m),
       [.wrote .votesC st.votes.sha]) ∧
    subInternal m = ⟨false, "Internal Server Error: " ++ m, none, 500⟩ := by
  refine ⟨?_, rfl⟩
  have hsplit : [SAct.stp none, .stp none, .stp none, .stp none, .stp (some m)] =
      [SAct.stp none, .stp none, .stp none, .stp none] ++ [.stp (some m)] := rfl
  rw [hsplit, subRun_append, submit_four ts hv hp hf hu, subRun_stp]
  rw [subStep_fault_writeUsed, subRun_nil]
  simp

/-- Claim C2 witness at a concrete store and fault. -/
theorem C2_witness :
    subRun reqA "T" [.stp none, .stp none, .stp none, .stp none, .stp (some "boom")]
        (stInit, subInit reqA, []) =
      ({stInit with
          votes := ⟨true, (stInit.votes.readDoc).1 ++ [mkRecord reqA credA "T"],
            stInit.votes.ver + 1⟩},
       .done (subInternal "boom"),
       [.wrote .votesC stInit.votes.sha]) ∧
    subInternal "boom" = ⟨false, "Internal Server Error: " ++ "boom", none, 500⟩ :=
  C2_partial_write_failure_is_fatal stInit reqA credA "T" "boom"
    (by decide) (by decide) (by decide) (by decide)

/-- Claim C3 counterexample to "no write is applied to any collection": along
`c3Trace` every one of the three attempts ends in a version conflict (on the
used-ids write), the operation answers the exhausted try-again failure — yet
three successful CAS writes were applied, leaving three VoteRecords for
`"ABC123"` in the votes collection. -/
theorem C3_counterexample :
    c3Final.2.1 = .done subExhausted ∧
    nConf c3Final.2.2 = 3 ∧
    nW c3Final.2.2 = 3 ∧
    (c3Final.1.votes.items.filter (fun v => v.votingId == "ABC123")).length = 3 := by
  decide

/-- Claim C3 (amended): along any trace, if the three attempts all end in a
version conflict, the operation terminates with the distinguished exhausted
outcome — `success:false`, HTTP 500, a try-again message, not a crash.
Candidate registration then performed no successful write at all, and vote
submission performed no successful write to the used-voting-ids collection;
votes-collection writes of attempts later aborted by a conflict on the
used-ids write may remain applied (see the counterexample). -/
theorem C3_retries_exhausted
    (acts racts : List SAct) (st rst : Store) (req : VoteReq) (ts : String)
    (cand : Candidate)
    (hs : nConf (subRun req ts acts (st, subInit req, [])).2.2 = 3)
    (hr : nConf (regRun cand racts (rst, regInit cand, [])).2.2 = 3) :
    (subRun req ts acts (st, subInit req, [])).2.1 = .done subExhausted ∧
    nUsedW (subRun req ts acts (st, subInit req, [])).2.2 = 0 ∧
    subExhausted.success = false ∧ subExhausted.status = 500 ∧
    (regRun cand racts (rst, regInit cand, [])).2.1 = .doneR regExhausted ∧
    nW (regRun cand racts (rst, regInit cand, [])).2.2 = 0 ∧
    regExhausted.success = false ∧ regExhausted.status = 500 := by
  have hinvS := subInv_run req ts acts (st, subInit req, []) (subInv_init req)
  have hinvR := regInv_run cand racts (rst, regInit cand, []) (regInv_init cand)
  obtain ⟨hpcS, hwS⟩ := sub_exhaust_of_conf3 hinvS hs
  obtain ⟨hpcR, hwR⟩ := reg_exhaust_of_conf3 hinvR hr
  exact ⟨hpcS, hwS, rfl, rfl, hpcR, hwR, rfl, rfl⟩

/-- Claim C3 witness: concrete all-conflict traces for both operations. -/
theorem C3_witness :
    (subRun reqA "T1" c3Trace (stInit, subInit reqA, [])).2.1 = .done subExhausted ∧
    nUsedW (subRun reqA "T1" c3Trace (stInit, subInit reqA, [])).2.2 = 0 ∧
    (regRun candRed r3Trace (stInit, regInit candRed, [])).2.1 = .doneR regExhausted ∧
    nW (regRun candRed r3Trace (stInit, regInit candRed, [])).2.2 = 0 := by
  have h := C3_retries_exhausted c3Trace r3Trace stInit stInit reqA "T1" candRed
    (by decide) (by decide)
  exact ⟨h.1, h.2.1, h.2.2.2.2.1, h.2.2.2.2.2.1⟩

/-- Claim C4: a stale-sha CAS write at attempt `i` (on any of the three
written collections) leaves the store untouched, sleeps `100 * (i + 1)` ms and
re-enters the loop at the fresh-read state of attempt `i + 1`; an injected
non-conflict failure at any store operation of either handler aborts
immediately to the HTTP 500 fatal response with no sleep, no retry and no
store change. -/
theorem C4_conflict_retries_others_abort
    (req : VoteReq) (ts m : String) (st : Store) (i : Nat)
    (nv : List VoteRecord) (vSha : Option Nat) (nu : List String) (uSha : Option Nat)
    (cand : Candidate) (xs : List Candidate) (csha : Option Nat) (cred : Credential)
    (hi : i + 1 < MAX_RETRIES)
    (hv : vSha ≠ st.votes.sha) (hu : uSha ≠ st.usedIds.sha)
    (hc : csha ≠ st.candidates.sha) :
    subStep req ts none st (.writeVotes i nv vSha nu uSha) =
      (st, .readIds (i + 1), [.conflicted .votesC, .slept (100 * (i + 1))]) ∧
    subStep req ts none st (.writeUsed i nu uSha) =
      (st, .readIds (i + 1), [.conflicted .usedC, .slept (100 * (i + 1))]) ∧
    regStep cand none st (.writeCands i xs csha) =
      (st, .readCands (i + 1), [.conflicted .candsC, .slept (100 * (i + 1))]) ∧
    subStep req ts (some m) st (.readIds i) = (st, .done (subInternal m), []) ∧
    subStep req ts (some m) st (.readUsed i cred) = (st, .done (subInternal m), []) ∧
    subStep req ts (some m) st (.readVotes i cred nu uSha) =
      (st, .done (subInternal m), []) ∧
    subStep req ts (some m) st (.writeVotes i nv vSha nu uSha) =
      (st, .done (subInternal m), []) ∧
    subStep req ts (some m) st (.writeUsed i nu uSha) =
      (st, .done (subInternal m), []) ∧
    regStep cand (some m) st (.readCands i) = (st, .doneR (regInternal m), []) ∧
    regStep cand (some m) st (.writeCands i xs csha) =
      (st, .doneR (regInternal m), []) ∧
    (subInternal m).success = false ∧ (subInternal m).status = 500 ∧
    (regInternal m).success = false ∧ (regInternal m).status = 500 := by
  refine ⟨?_, ?_, ?_, rfl, rfl, rfl, rfl, rfl, rfl, rfl, rfl, rfl, rfl, rfl⟩
  · rw [subStep_writeVotes_conf req ts i nv nu uSha hv]
    simp [subConflict, hi]
  · rw [subStep_writeUsed_conf req ts i nu hu]
    simp [subConflict, hi]
  · rw [regStep_write_conf cand i xs hc]
    simp [regConflict, hi]

/-- Claim C4 witness at attempt 0 with concrete stale shas and fault. -/
theorem C4_witness :
    subStep reqA "T" none stInit (.writeVotes 0 [] (some 5) [] (some 7)) =
      (stInit, .readIds 1, [.conflicted .votesC, .slept 100]) ∧
    subStep reqA "T" none stInit (.writeUsed 0 [] (some 7)) =
      (stInit, .readIds 1, [.conflicted .usedC, .slept 100]) ∧
    regStep candRed none stInit (.writeCands 0 [] (some 9)) =
      (stInit, .readCands 1, [.conflicted .candsC, .slept 100]) ∧
    subStep reqA "T" (some "net") stInit (.readIds 0) =
      (stInit, .done (subInternal "net"), []) ∧
    subStep reqA "T" (some "net") stInit (.readUsed 0 credA) =
      (stInit, .done (subInternal "net"), []) ∧
    subStep reqA "T" (some "net") stInit (.readVotes 0 credA [] (some 7)) =
      (stInit, .done (subInternal "net"), []) ∧
    subStep reqA "T" (some "net") stInit (.writeVotes 0 [] (some 5) [] (some 7)) =
      (stInit, .done (subInternal "net"), []) ∧
    subStep reqA "T" (some "net") stInit (.writeUsed 0 [] (some 7)) =
      (stInit, .done (subInternal "net"), []) ∧
    regStep candRed (some "net") stInit (.readCands 0) =
      (stInit, .doneR (regInternal "net"), []) ∧
    regStep candRed (some "net") stInit (.writeCands 0 [] (some 9)) =
      (stInit, .doneR (regInternal "net"), []) ∧
    (subInternal "net").success = false ∧ (subInternal "net").status = 500 ∧
    (regInternal "net").success = false ∧ (regInternal "net").status = 500 :=
  C4_conflict_retries_others_abort reqA "T" "net" stInit 0 [] (some 5) [] (some 7)
    candRed [] (some 9) credA (by decide) (by decide) (by decide) (by decide)

/-- Claim C5 counterexample: the already-used submit-vote response carries no
`used` key at all (so not `used = true` as claimed); and an id that is in the
used-ids collection but not provisioned in the voting-ids collection is
answered with the 401 Invalid-Voting-ID failure, not a success (the validity
check runs first). -/
theorem C5_counterexample :
    ((subRun reqA "T" [.stp none, .stp none] (stUsed, subInit reqA, [])).2.1 =
        .done subAlreadyUsed ∧
      subAlreadyUsed.used = none) ∧
    ((subRun reqA "T" [.stp none] (stNoCred, subInit reqA, [])).2.1 =
        .done subInvalid ∧
      subInvalid.success = false) := by
  decide

/-- Claim C5 (amended): submitting a vote whose votingId is provisioned and
already present in the used-voting-ids collection answers the HTTP 200
`success:true` already-been-used response (whose JSON carries no `used` key),
performs no write to any collection (the store is returned unchanged, so a
repeated submission behaves identically), and never creates a second
VoteRecord; the finished execution ignores all further actions. -/
theorem C5_already_used_idempotent
    (st : Store) (req : VoteReq) (cred : Credential) (ts : String)
    (hv : ¬ req.votingId = "") (hp : ¬ req.party = "")
    (hf : (st.votingIds.readDoc).1.find? (fun c => c.id == req.votingId) = some cred)
    (hu : (st.usedIds.readDoc).1.contains req.votingId = true) :
    subRun req ts [.stp none, .stp none] (st, subInit req, []) =
      (st, .done subAlreadyUsed, []) ∧
    subAlreadyUsed = ⟨true, "This Voting ID has already been used to vote.", none, 200⟩ ∧
    ∀ acts, (subRun req ts acts (st, .done subAlreadyUsed, [])).2 =
      (.done subAlreadyUsed, []) := by
  refine ⟨?_, rfl, fun acts => subRun_done req ts acts st _ []⟩
  rw [subInit_go hv hp, subRun_stp, subStep_readIds_found ts 0 hf, subRun_stp,
    subStep_readUsed_used ts 0 cred hu, subRun_nil]
  simp

/-- Claim C5 witness at a concrete used credential. -/
theorem C5_witness :
    subRun reqA "T2" [.stp none, .stp none] (stUsed, subInit reqA, []) =
      (stUsed, .done subAlreadyUsed, []) ∧
    subAlreadyUsed = ⟨true, "This Voting ID has already been used to vote.", none, 200⟩ ∧
    (subRun reqA "T2" [.stp none] (stUsed, .done subAlreadyUsed, [])).2 =
      (.done subAlreadyUsed, []) := by
  have h := C5_already_used_idempotent stUsed reqA credA "T2"
    (by decide) (by decide) (by decide) (by decide)
  exact ⟨h.1, h.2.1, h.2.2 [.stp none]⟩

/-- Claim C6: a fault-free submission of a provisioned, unused credential
answers `{success:true, message:"Vote submitted successfully."}` (HTTP 200)
and appends exactly one VoteRecord — built from the submitted votingId and
party, the playerName of the credential and gameEdition, the optional contact
fields (defaulted to `""`) and the server-assigned timestamp — while the
used-voting-ids collection gains exactly that votingId; the other two
collections are untouched. -/
theorem C6_successful_submission
    (st : Store) (req : VoteReq) (cred : Credential) (ts : String)
    (hv : ¬ req.votingId = "") (hp : ¬ req.party = "")
    (hf : (st.votingIds.readDoc).1.find? (fun c => c.id == req.votingId) = some cred)
    (hu : (st.usedIds.readDoc).1.contains req.votingId = false) :
    subRun req ts [.stp none, .stp none, .stp none, .stp none, .stp none]
        (st, subInit req, []) =
      ({st with
          votes := ⟨true, (st.votes.readDoc).1 ++ [mkRecord req cred ts],
            st.votes.ver + 1⟩,
          usedIds := ⟨true, (st.usedIds.readDoc).1 ++ [req.votingId],
            st.usedIds.ver + 1⟩},
       .done subOk,
       [.wrote .votesC st.votes.sha, .wrote .usedC st.usedIds.sha]) ∧
    subOk = ⟨true, "Vote submitted successfully.", none, 200⟩ ∧
    mkRecord req cred ts =
      ⟨req.votingId, req.party, cred.playerName, cred.gameEdition,
        req.realName.getD "", req.discordInsta.getD "", ts⟩ :=
  ⟨submit_five ts hv hp hf hu, rfl, rfl⟩

/-- Claim C6 witness at a concrete store. -/
theorem C6_witness :
    subRun reqA "T3" [.stp none, .stp none, .stp none, .stp none, .stp none]
        (stInit, subInit reqA, []) =
      ({stInit with
          votes := ⟨true, (stInit.votes.readDoc).1 ++ [mkRecord reqA credA "T3"],
            stInit.votes.ver + 1⟩,
          usedIds := ⟨true, (stInit.usedIds.readDoc).1 ++ ["ABC123"],
            stInit.usedIds.ver + 1⟩},
       .done subOk,
       [.wrote .votesC stInit.votes.sha, .wrote .usedC stInit.usedIds.sha]) ∧
    subOk = ⟨true, "Vote submitted successfully.", none, 200⟩ ∧
    mkRecord reqA credA "T3" =
      ⟨reqA.votingId, reqA.party, credA.playerName, credA.gameEdition,
        reqA.realName.getD "", reqA.discordInsta.getD "", "T3"⟩ :=
  C6_successful_submission stInit reqA credA "T3"
    (by decide) (by decide) (by decide) (by decide)

/-- Claim C7: when the candidates collection already holds a party whose name
equals the new one case-insensitively, registration answers the HTTP 409
duplicate-party failure at its very first read, performs no write (the store
is unchanged and the event log empty), and is never retried (the finished
execution ignores all further actions). -/
theorem C7_duplicate_party_rejected
    (st : Store) (cand : Candidate)
    (hp : ¬ cand.partyName = "") (hc : ¬ cand.candidateName = "")
    (hw : ¬ cand.password = "")
    (hd : (st.candidates.readDoc).1.any
      (fun c0 => lowerStr c0.partyName == lowerStr cand.partyName) = true) :
    regRun cand [.stp none] (st, regInit cand, []) = (st, .doneR regDup, []) ∧
    regDup = ⟨false, "A party with this name already exists.", 409⟩ ∧
    ∀ acts, (regRun cand acts (st, .doneR regDup, [])).2 = (.doneR regDup, []) := by
  refine ⟨?_, rfl, fun acts => regRun_done cand acts st _ []⟩
  rw [regInit_go hp hc hw, regRun_stp, regStep_read_dup 0 hd, regRun_nil]
  simp

/-- Claim C7 witness: `"rEd"` collides with the stored `"Red"`. -/
theorem C7_witness :
    regRun candREDCase [.stp none]
        ({stInit with candidates := ⟨true, [candRed], 0⟩}, regInit candREDCase, []) =
      ({stInit with candidates := ⟨true, [candRed], 0⟩}, .doneR regDup, []) ∧
    regDup = ⟨false, "A party with this name already exists.", 409⟩ ∧
    (regRun candREDCase [.stp none]
        ({stInit with candidates := ⟨true, [candRed], 0⟩}, .doneR regDup, [])).2 =
      (.doneR regDup, []) := by
  have h := C7_duplicate_party_rejected
    {stInit with candidates := ⟨true, [candRed], 0⟩} candREDCase
    (by decide) (by decide) (by decide) (by decide)
  exact ⟨h.1, h.2.1, h.2.2 [.stp none]⟩

/-- Claim C8: a collection the store reports as absent reads as the empty
sequence with the absent version marker (`sha = none`), and a submission
against never-written used-ids and votes collections succeeds, creating both
collections with exactly the one record and the one id, each CAS write
conditioned on the absent marker. -/
theorem C8_absent_collection_reads_empty {α : Type} (d : VDoc α)
    (hd : d.present = false)
    (st : Store) (req : VoteReq) (cred : Credential) (ts : String)
    (hv : ¬ req.votingId = "") (hp : ¬ req.party = "")
    (hf : (st.votingIds.readDoc).1.find? (fun c => c.id == req.votingId) = some cred)
    (hus : st.usedIds.present = false) (hvs : st.votes.present = false) :
    d.readDoc = ([], none) ∧
    subRun req ts [.stp none, .stp none, .stp none, .stp none, .stp none]
        (st, subInit req, []) =
      ({st with
          votes := ⟨true, [mkRecord req cred ts], st.votes.ver + 1⟩,
          usedIds := ⟨true, [req.votingId], st.usedIds.ver + 1⟩},
       .done subOk,
       [.wrote .votesC none, .wrote .usedC none]) := by
  have hu : (st.usedIds.readDoc).1.contains req.votingId = false := by
    simp [VDoc.readDoc, hus]
  refine ⟨by simp [VDoc.readDoc, hd], ?_⟩
  rw [submit_five ts hv hp hf hu]
  simp [VDoc.readDoc, VDoc.sha, hus, hvs]

/-- Claim C8 witness: both writable collections absent. -/
theorem C8_witness :
    (⟨false, [], 0⟩ : VDoc String).readDoc = ([], none) ∧
    subRun reqA "T4" [.stp none, .stp none, .stp none, .stp none, .stp none]
        (stFresh, subInit reqA, []) =
      ({stFresh with
          votes := ⟨true, [mkRecord reqA credA "T4"], stFresh.votes.ver + 1⟩,
          usedIds := ⟨true, ["ABC123"], stFresh.usedIds.ver + 1⟩},
       .done subOk,
       [.wrote .votesC none, .wrote .usedC none]) :=
  C8_absent_collection_reads_empty (⟨false, [], 0⟩ : VDoc String) rfl
    stFresh reqA credA "T4" (by decide) (by decide) (by decide) rfl rfl

/-- Claim C9: a submission whose votingId is not provisioned is answered with
the terminal HTTP 401 Invalid-Voting-ID failure at the first read; the store
is unchanged, no event is produced, and the finished execution ignores all
further actions. -/
theorem C9_invalid_id_rejected
    (st : Store) (req : VoteReq) (ts : String)
    (hv : ¬ req.votingId = "") (hp : ¬ req.party = "")
    (hf : (st.votingIds.readDoc).1.find? (fun c => c.id == req.votingId) = none) :
    subRun req ts [.stp none] (st, subInit req, []) = (st, .done subInvalid, []) ∧
    subInvalid = ⟨false, "Invalid Voting ID provided for vote submission.", none, 401⟩ ∧
    ∀ acts, (subRun req ts acts (st, .done subInvalid, [])).2 =
      (.done subInvalid, []) := by
  refine ⟨?_, rfl, fun acts => subRun_done req ts acts st _ []⟩
  rw [subInit_go hv hp, subRun_stp, subStep_readIds_none ts 0 hf, subRun_nil]
  simp

/-- Claim C9 witness: unknown credential `"ZZZ"`. -/
theorem C9_witness :
    subRun ⟨"ZZZ", "Red", none, none⟩ "T5" [.stp none]
        (stInit, subInit ⟨"ZZZ", "Red", none, none⟩, []) =
      (stInit, .done subInvalid, []) ∧
    subInvalid = ⟨false, "Invalid Voting ID provided for vote submission.", none, 401⟩ ∧
    (subRun ⟨"ZZZ", "Red", none, none⟩ "T5" [.stp none]
        (stInit, .done subInvalid, [])).2 = (.done subInvalid, []) := by
  have h := C9_invalid_id_rejected stInit ⟨"ZZZ", "Red", none, none⟩ "T5"
    (by decide) (by decide) (by decide)
  exact ⟨h.1, h.2.1, h.2.2 [.stp none]⟩

/-- Claim C10: both forms of `check-voting-id` are read-only — for every store
and every input (missing, invalid, valid-and-unused, valid-and-used alike)
they return the store exactly as given, writing nothing. -/
theorem C10_check_voting_id_read_only (st : Store) (v : String) :
    (checkPost st v).2 = st ∧ (checkGet st v).2 = st := by
  refine ⟨?_, ?_⟩
  · unfold checkPost
    split
    · rfl
    · split <;> rfl
  · unfold checkGet
    split
    · rfl
    · split <;> rfl

end Voting
